import Mathlib

/-!
# Heimdex job platform — verification of the spec against the source

A shallow embedding of the reliable job ingest / dispatch subsystem of the
heimdex repository:

* `heimdex_common/job_utils.py` — job-key hashing (`stable_dumps`, `make_job_key`);
* `heimdex_common/models.py` — the `Job` / `JobEvent` / `Outbox` data model;
* `heimdex_common/repositories/job_repository.py` — the ledger store;
* `heimdex_api/jobs.py` — `create_job` (submit) and `get_job_status`;
* `heimdex_api/outbox_dispatcher.py` — `dispatch_outbox_messages`;
* `heimdex_worker/tasks.py` — `_update_job_status` and `process_mock`.

Machine integers do not occur (Python ints are unbounded); SHA-256 words are
`Nat` reduced `% 2^32` exactly where the algorithm wraps.  Database state is an
explicit record of row lists; `get_db`'s commit/rollback protocol is modelled
where a claim depends on it.  Python `datetime.now` and `uuid.uuid4` are passed
as explicit parameters.
-/

namespace Heimdex

/-! ## UTF-8 encoding of strings

`canonical.encode("utf-8")` in `make_job_key` produces the UTF-8 bytes of the
canonical string; we encode each scalar value with the standard 1–4 byte
scheme. -/

/-- UTF-8 bytes of one Unicode scalar value. -/
def utf8EncodeChar (c : Char) : List Nat :=
  let n := c.toNat
  if n < 128 then [n]
  else if n < 2048 then [192 + (n >>> 6), 128 + n % 64]
  else if n < 65536 then [224 + (n >>> 12), 128 + (n >>> 6) % 64, 128 + n % 64]
  else [240 + (n >>> 18), 128 + (n >>> 12) % 64, 128 + (n >>> 6) % 64, 128 + n % 64]

/-- UTF-8 bytes of a string (Python `str.encode("utf-8")`). -/
def utf8Encode (s : String) : List Nat :=
  (s.data.map utf8EncodeChar).flatten

/-! ## SHA-256 (`hashlib.sha256`)

`make_job_key` delegates hashing to Python's `hashlib.sha256`; the function is
reproduced here over byte lists, with 32-bit words as `Nat % 2^32`. -/

/-- Truncate to a 32-bit word. -/
def w32 (n : Nat) : Nat := n % 4294967296

/-- Right rotation of a 32-bit word. -/
def rotr (n w : Nat) : Nat := w32 ((w >>> n) ||| (w <<< (32 - n)))

/-- Bitwise complement of a 32-bit word. -/
def wnot (w : Nat) : Nat := Nat.xor w 4294967295

def bsig0 (x : Nat) : Nat := Nat.xor (Nat.xor (rotr 2 x) (rotr 13 x)) (rotr 22 x)
def bsig1 (x : Nat) : Nat := Nat.xor (Nat.xor (rotr 6 x) (rotr 11 x)) (rotr 25 x)
def ssig0 (x : Nat) : Nat := Nat.xor (Nat.xor (rotr 7 x) (rotr 18 x)) (x >>> 3)
def ssig1 (x : Nat) : Nat := Nat.xor (Nat.xor (rotr 17 x) (rotr 19 x)) (x >>> 10)
def chf (x y z : Nat) : Nat := Nat.xor (x &&& y) ((wnot x) &&& z)
def majf (x y z : Nat) : Nat := Nat.xor (Nat.xor (x &&& y) (x &&& z)) (y &&& z)

/-- The 64 SHA-256 round constants (decimal). -/
def sha256K : List Nat :=
  [1116352408, 1899447441, 3049323471, 3921009573,
   961987163, 1508970993, 2453635748, 2870763221,
   3624381080, 310598401, 607225278, 1426881987,
   1925078388, 2162078206, 2614888103, 3248222580,
   3835390401, 4022224774, 264347078, 604807628,
   770255983, 1249150122, 1555081692, 1996064986,
   2554220882, 2821834349, 2952996808, 3210313671,
   3336571891, 3584528711, 113926993, 338241895,
   666307205, 773529912, 1294757372, 1396182291,
   1695183700, 1986661051, 2177026350, 2456956037,
   2730485921, 2820302411, 3259730800, 3345764771,
   3516065817, 3600352804, 4094571909, 275423344,
   430227734, 506948616, 659060556, 883997877,
   958139571, 1322822218, 1537002063, 1747873779,
   1955562222, 2024104815, 2227730452, 2361852424,
   2428436474, 2756734187, 3204031479, 3329325298]

/-- The eight 32-bit working variables / digest words of SHA-256. -/
structure H8 where
  a : Nat
  b : Nat
  c : Nat
  d : Nat
  e : Nat
  f : Nat
  g : Nat
  h : Nat
deriving DecidableEq, Repr

/-- SHA-256 initial hash value (decimal). -/
def sha256H0 : H8 :=
  ⟨1779033703, 3144134277, 1013904242, 2773480762,
   1359893119, 2600822924, 528734635, 1541459225⟩

/-- Big-endian 8-byte encoding of the bit length appended by padding. -/
def lenBytes64 (n : Nat) : List Nat :=
  [(n >>> 56) % 256, (n >>> 48) % 256, (n >>> 40) % 256, (n >>> 32) % 256,
   (n >>> 24) % 256, (n >>> 16) % 256, (n >>> 8) % 256, n % 256]

/-- SHA-256 padding: `0x80`, zeros to 56 mod 64, then the 64-bit bit length. -/
def sha256Pad (msg : List Nat) : List Nat :=
  let L := msg.length
  msg ++ [128] ++ List.replicate ((119 - L % 64) % 64) 0 ++ lenBytes64 (8 * L)

/-- Split a byte list into 64-byte blocks (fuel-structured so the kernel can
evaluate it; the fuel `l.length` always suffices since each step drops 64). -/
def chunks64Aux : Nat → List Nat → List (List Nat)
  | 0, _ => []
  | _, [] => []
  | fuel + 1, x :: xs => (x :: xs).take 64 :: chunks64Aux fuel ((x :: xs).drop 64)

/-- Split a byte list into 64-byte blocks. -/
def chunks64 (l : List Nat) : List (List Nat) := chunks64Aux l.length l

/-- Big-endian 32-bit words of a block. -/
def bytesToWords : List Nat → List Nat
  | a :: b :: c :: d :: rest =>
      ((a <<< 24) + (b <<< 16) + (c <<< 8) + d) :: bytesToWords rest
  | _ => []

/-- Extend the 16 message words of a block to the 64-entry schedule. -/
def sha256Schedule (ws : Array Nat) : Array Nat :=
  (List.range 48).foldl
    (fun acc j =>
      let i := j + 16
      acc.push (w32 (acc.getD (i - 16) 0 + ssig0 (acc.getD (i - 15) 0) +
                     acc.getD (i - 7) 0 + ssig1 (acc.getD (i - 2) 0))))
    ws

/-- One SHA-256 compression of a 64-byte block into the running hash. -/
def sha256Compress (st : H8) (block : List Nat) : H8 :=
  let ws := sha256Schedule (Array.mk (bytesToWords block))
  let t := (List.range 64).foldl
    (fun (p : H8) i =>
      let t1 := w32 (p.h + bsig1 p.e + chf p.e p.f p.g +
                     sha256K.getD i 0 + ws.getD i 0)
      let t2 := w32 (bsig0 p.a + majf p.a p.b p.c)
      ⟨w32 (t1 + t2), p.a, p.b, p.c, w32 (p.d + t1), p.e, p.f, p.g⟩)
    st
  ⟨w32 (st.a + t.a), w32 (st.b + t.b), w32 (st.c + t.c), w32 (st.d + t.d),
   w32 (st.e + t.e), w32 (st.f + t.f), w32 (st.g + t.g), w32 (st.h + t.h)⟩

/-- SHA-256 digest (eight 32-bit words) of a byte list. -/
def sha256Digest (msg : List Nat) : H8 :=
  (chunks64 (sha256Pad msg)).foldl sha256Compress sha256H0

/-- The sixteen lowercase hex digits. -/
def hexDigitChars : List Char := "0123456789abcdef".data

/-- One hex digit. -/
def nibChar (n : Nat) : Char := hexDigitChars.getD (n % 16) '0'

/-- Eight-digit lowercase hex of a 32-bit word. -/
def wordHex (w : Nat) : String :=
  String.mk [nibChar (w >>> 28), nibChar (w >>> 24), nibChar (w >>> 20),
             nibChar (w >>> 16), nibChar (w >>> 12), nibChar (w >>> 8),
             nibChar (w >>> 4), nibChar w]

/-- Lowercase hex digest of a byte list (`hashlib.sha256(...).hexdigest()`). -/
def sha256HexBytes (msg : List Nat) : String :=
  let d := sha256Digest msg
  wordHex d.a ++ wordHex d.b ++ wordHex d.c ++ wordHex d.d ++
  wordHex d.e ++ wordHex d.f ++ wordHex d.g ++ wordHex d.h

/-! ## Canonical JSON and the job key (`heimdex_common/job_utils.py`)

`stable_dumps` is `json.dumps(obj, sort_keys=True, separators=(",", ":"))`:
keys sorted, compact separators, default `ensure_ascii=True` escaping.  A
payload is a finite map given as an association list (Python dict iteration
order = insertion order); values cover the JSON primitives the codebase puts
in payloads. -/

/-- A JSON primitive payload value. -/
inductive JVal
  | jstr (s : String)
  | jint (n : Int)
  | jbool (b : Bool)
  | jnull
deriving DecidableEq, Repr

/-- `\uXXXX` escape with four lowercase hex digits. -/
def uEsc (n : Nat) : String :=
  "\\u" ++ String.mk [nibChar (n >>> 12), nibChar (n >>> 8), nibChar (n >>> 4), nibChar n]

/-- `json.dumps` escaping of one character (`ensure_ascii=True`): printable
ASCII other than `"` and `\` is literal, the usual short escapes apply, and
everything else becomes `\uXXXX` (a surrogate pair beyond the BMP). -/
def jsonEscapeChar (c : Char) : String :=
  let n := c.toNat
  if c = '"' then "\\\""
  else if c = '\\' then "\\\\"
  else if c = '\n' then "\\n"
  else if c = '\t' then "\\t"
  else if c = '\r' then "\\r"
  else if n = 8 then "\\b"
  else if n = 12 then "\\f"
  else if n < 32 ∨ n > 126 then
    if n < 65536 then uEsc n
    else uEsc (55296 + ((n - 65536) >>> 10)) ++ uEsc (56320 + (n - 65536) % 1024)
  else String.singleton c

/-- A JSON string literal. -/
def jsonQuote (s : String) : String :=
  "\"" ++ String.join (s.data.map jsonEscapeChar) ++ "\""

/-- Serialization of one payload value. -/
def jvalDumps : JVal → String
  | .jstr s => jsonQuote s
  | .jint n => toString n
  | .jbool true => "true"
  | .jbool false => "false"
  | .jnull => "null"

/-- The key order produced by `sort_keys=True`. -/
def sortPairs (l : List (String × JVal)) : List (String × JVal) :=
  l.insertionSort (fun a b => a.1 ≤ b.1)

/-- `stable_dumps`: canonical JSON of a payload — keys sorted
lexicographically, separators `(",", ":")`, no whitespace. -/
def stable_dumps (obj : List (String × JVal)) : String :=
  "\x7b" ++
    String.intercalate ","
      ((sortPairs obj).map (fun kv => jsonQuote kv.1 ++ ":" ++ jvalDumps kv.2)) ++
  "\x7d"

/-- `make_job_key(org_id, op_type, payload)`:
`sha256(f"{org_id}:{op_type}:{stable_dumps(payload)}".encode("utf-8")).hexdigest()`.
`org_id` is the canonical string of the UUID (what `f"{org_id}"` interpolates). -/
def make_job_key (org_id op_type : String) (payload : List (String × JVal)) : String :=
  let canonical := org_id ++ ":" ++ op_type ++ ":" ++ stable_dumps payload
  sha256HexBytes (utf8Encode canonical)

/-! ## Data model (`heimdex_common/models.py`)

Rows carry the columns the verified components read or write.  Timestamps are
abstract instants (`Nat`); UUIDs are their canonical strings.  `DbState` is
the visible database: the three tables plus the `BIGSERIAL` outbox sequence. -/

/-- `JobStatus` — the allowed states of the job lifecycle. -/
inductive JobStatus
  | queued
  | running
  | succeeded
  | failed
  | canceled
  | dead_letter
deriving DecidableEq, Repr

/-- `JobStatus.value` — the wire string of each status. -/
def JobStatus.value : JobStatus → String
  | .queued => "queued"
  | .running => "running"
  | .succeeded => "succeeded"
  | .failed => "failed"
  | .canceled => "canceled"
  | .dead_letter => "dead_letter"

/-- `BackoffPolicy` — retry scheduling strategies. -/
inductive BackoffPolicy
  | noRetry
  | fixed
  | exponential
deriving DecidableEq, Repr

/-- The worker's mock result payload (`process_mock`'s `result` dict). -/
structure MockResult where
  stages_completed : List String
  total_duration_seconds : Nat
  completed_at : String
deriving DecidableEq, Repr

/-- A `JobEvent.detail_json` blob as the verified components build it:
optional `stage`, `progress`, `result` entries. -/
structure Detail where
  stage : Option String := none
  progress : Option Nat := none
  result : Option MockResult := none
deriving DecidableEq, Repr

/-- The Python truthiness test `if event_detail` on the detail dict. -/
def Detail.isEmpty (d : Detail) : Bool :=
  d.stage == none && d.progress == none && d.result == none

/-- A `job` table row. -/
structure JobRow where
  id : String
  org_id : String
  type : String
  status : JobStatus
  attempt : Nat
  max_attempts : Nat
  backoff_policy : BackoffPolicy
  priority : Int
  idempotency_key : Option String
  job_key : Option String
  requested_by : Option String
  created_at : Nat
  updated_at : Nat
  started_at : Option Nat
  finished_at : Option Nat
  last_error_code : Option String
  last_error_message : Option String
deriving DecidableEq, Repr

/-- A `job_event` table row. -/
structure EventRow where
  id : String
  job_id : String
  ts : Nat
  prev_status : Option String
  next_status : String
  detail_json : Option Detail
deriving DecidableEq, Repr

/-- The `Outbox.payload` JSONB as `create_job` builds it:
`{"queue_name": "default", "args": (str(job.id), request.fail_at_stage),
"kwargs": {}, "options": {}}` (the empty dicts are omitted here). -/
structure OutboxPayload where
  queue_name : String
  arg_job_id : String
  arg_fail_at_stage : Option String
deriving DecidableEq, Repr

/-- An `outbox` table row. -/
structure OutboxRow where
  id : Nat
  job_id : String
  task_name : String
  payload : OutboxPayload
  sent_at : Option Nat
  fail_count : Nat
  last_error : Option String
  created_at : Nat
deriving DecidableEq, Repr

/-- The visible database: the three tables and the `BIGSERIAL` sequence that
numbers outbox rows. -/
structure DbState where
  jobs : List JobRow
  events : List EventRow
  outbox : List OutboxRow
  outboxSeq : Nat
deriving DecidableEq, Repr

/-- The `status_finished_at_consistency` check constraint of the `job` table:
terminal status forces `finished_at` set, non-terminal forces it unset. -/
def status_finished_at_consistency (j : JobRow) : Bool :=
  (decide (j.status = .succeeded ∨ j.status = .failed ∨ j.status = .canceled ∨
           j.status = .dead_letter) && decide (j.finished_at ≠ none)) ||
  (decide (j.status = .queued ∨ j.status = .running) && decide (j.finished_at = none))

/-! ## Ledger repository (`heimdex_common/repositories/job_repository.py`)

Repository methods run inside a caller-supplied session; each returns the
session state it leaves behind.  `ValueError` (job not found) is `none` — the
surrounding `get_db` rolls the transaction back and re-raises.  `uuid.uuid4()`
and `datetime.now(UTC)` are the explicit `event_id` / `now` parameters. -/

/-- Python string slicing `s[:2048]` (used for the 2048-char error columns). -/
def truncate2048 (s : String) : String := String.mk (s.data.take 2048)

/-- `JobRepository.get_job_by_id`. -/
def get_job_by_id (db : DbState) (job_id : String) : Option JobRow :=
  db.jobs.find? (fun j => j.id == job_id)

/-- Modelled from the spec: `JobRepository.get_job_by_job_key` is called by
`create_job` (jobs.py line 179) but is not defined in any source file under
`src/`; §4.3 step 3 specifies it as "Look up existing Job by `job_key`". -/
def get_job_by_job_key (db : DbState) (key : String) : Option JobRow :=
  db.jobs.find? (fun j => j.job_key == some key)

/-- `JobRepository.get_latest_job_event`: events of the job ordered by `ts`
descending, first row. -/
def get_latest_job_event (db : DbState) (job_id : String) : Option EventRow :=
  ((db.events.filter (fun e => e.job_id == job_id)).insertionSort
    (fun a b => b.ts ≤ a.ts)).head?

/-- `JobRepository.log_job_event`: append one immutable audit row. -/
def log_job_event (db : DbState) (job_id : String) (prev_status : Option String)
    (next_status : String) (detail_json : Option Detail)
    (event_id : String) (now : Nat) : DbState :=
  { db with events := db.events ++
      [{ id := event_id, job_id := job_id, ts := now, prev_status := prev_status,
         next_status := next_status, detail_json := detail_json }] }

/-- The ORM mutation of the identified `Job` row. -/
def updateJobRows (jobs : List JobRow) (job_id : String) (f : JobRow → JobRow) :
    List JobRow :=
  jobs.map (fun j => if j.id == job_id then f j else j)

/-- The field writes `update_job_status` applies to the located row, in source
order: each optional argument updates its column only when supplied,
`last_error_message` is truncated to 2048, `updated_at` is always bumped. -/
def applyJobFieldUpdates (status : Option JobStatus)
    (last_error_code : Option String) (last_error_message : Option String)
    (started_at : Option Nat) (finished_at : Option Nat) (now : Nat)
    (j : JobRow) : JobRow :=
  let j := match status with
    | some s => { j with status := s }
    | none => j
  let j := match last_error_code with
    | some c => { j with last_error_code := some c }
    | none => j
  let j := match last_error_message with
    | some m => { j with last_error_message := some (truncate2048 m) }
    | none => j
  let j := match started_at with
    | some t => { j with started_at := some t }
    | none => j
  let j := match finished_at with
    | some t => { j with finished_at := some t }
    | none => j
  { j with updated_at := now }

/-- `JobRepository.update_job_status`.  The row mutation is
`applyJobFieldUpdates`; a `JobEvent` is logged iff `log_event` holds, a status
was supplied, and it differs from the previous status. -/
def update_job_status (db : DbState) (job_id : String) (status : Option JobStatus)
    (last_error_code : Option String) (last_error_message : Option String)
    (started_at : Option Nat) (finished_at : Option Nat) (log_event : Bool)
    (event_detail : Option Detail) (event_id : String) (now : Nat) :
    Option DbState :=
  match get_job_by_id db job_id with
  | none => none
  | some job =>
    let prev_status := job.status
    let jobs1 := updateJobRows db.jobs job_id
      (applyJobFieldUpdates status last_error_code last_error_message
        started_at finished_at now)
    let db1 := { db with jobs := jobs1 }
    match status with
    | some s =>
        if log_event ∧ prev_status ≠ s then
          some (log_job_event db1 job_id (some prev_status.value) s.value
                  event_detail event_id now)
        else some db1
    | none => some db1

/-- The terminal-status set, as both `tasks.py` and
`update_job_with_stage_progress` spell it. -/
def terminal_states : List JobStatus := [.succeeded, .failed, .canceled, .dead_letter]

/-- `JobRepository.update_job_with_stage_progress`: builds the detail blob,
derives `started_at` on the first transition into `running` and `finished_at`
on any transition to a terminal status, then delegates to
`update_job_status` with `log_event=True`. -/
def update_job_with_stage_progress (db : DbState) (job_id : String)
    (status : Option JobStatus) (stage : Option String) (progress : Option Nat)
    (result : Option MockResult) (error : Option String)
    (event_id : String) (now : Nat) : Option DbState :=
  match get_job_by_id db job_id with
  | none => none
  | some job =>
    let event_detail : Detail := { stage := stage, progress := progress, result := result }
    let started_at : Option Nat :=
      if status = some .running ∧ job.status ≠ .running then some now else none
    let finished_at : Option Nat :=
      match status with
      | some s => if s ∈ terminal_states then some now else none
      | none => none
    update_job_status db job_id status none error started_at finished_at true
      (if event_detail.isEmpty then none else some event_detail) event_id now

/-- `JobRepository.increment_attempt`: bump the retry counter (defined in the
repository; no code under `src/` ever calls it). -/
def increment_attempt (db : DbState) (job_id : String) (now : Nat) :
    Option DbState :=
  match get_job_by_id db job_id with
  | none => none
  | some _ =>
      some { db with jobs := (updateJobRows db.jobs job_id
              (fun j => { j with attempt := j.attempt + 1, updated_at := now })) }

/-! ## Outbox repository methods (spec-modelled)

`outbox_dispatcher.py` calls three `JobRepository` methods that no source file
under `src/` defines; they are modelled from §4.4 of the spec. -/

/-- Modelled from the spec: `JobRepository.get_unsent_outbox_messages` — §4.4
step 1, "Claim up to N pending rows (`sent_at IS NULL`), ordered by
`created_at`" (the `FOR UPDATE SKIP LOCKED` lock has no content in this
sequential model). -/
def get_unsent_outbox_messages (db : DbState) (limit : Nat) : List OutboxRow :=
  ((db.outbox.filter (fun r => r.sent_at == none)).insertionSort
    (fun a b => a.created_at ≤ b.created_at)).take limit

/-- Modelled from the spec: `JobRepository.mark_outbox_sent` — §4.4 step 3,
"On success: set `sent_at = now()`". -/
def mark_outbox_sent (db : DbState) (outbox_id : Nat) (now : Nat) : DbState :=
  { db with outbox := db.outbox.map (fun r =>
      if r.id == outbox_id then { r with sent_at := some now } else r) }

/-- Modelled from the spec: `JobRepository.mark_outbox_failed` — §4.4 step 4,
"On failure: increment `fail_count`, record truncated `last_error`"; the
truncation bound is the 2048-char `Outbox.last_error` column. -/
def mark_outbox_failed (db : DbState) (outbox_id : Nat) (error : String) : DbState :=
  { db with outbox := db.outbox.map (fun r =>
      if r.id == outbox_id then
        { r with fail_count := r.fail_count + 1, last_error := some (truncate2048 error) }
      else r) }

/-! ## Ingest (`heimdex_api/jobs.py` — `create_job`)

The endpoint body runs inside one `get_db` block: on normal exit the session
commits, on an exception it rolls back.  The body is embedded as a script of
its sequential effects on a transaction (committed state + session-pending
state); `session.commit()` is the only step that publishes pending writes.
A crash before it therefore leaves the committed state untouched. -/

/-- `JobCreateRequest` — the `POST /jobs` body. -/
structure JobCreateRequest where
  type : String
  fail_at_stage : Option String
deriving DecidableEq, Repr

/-- `payload_for_key` in `create_job`: only the request's `type` field
participates in the job-key hash (`fail_at_stage` is deliberately excluded). -/
def payload_for_key (request : JobCreateRequest) : List (String × JVal) :=
  [("type", JVal.jstr request.type)]

/-- A session transaction: the durable state plus the session's pending view. -/
structure Txn where
  committed : DbState
  pending : DbState
deriving DecidableEq, Repr

/-- The sequential effects of `create_job`'s transaction body. -/
inductive CjStep
  | addJob
  | logEvent
  | addOutbox
  | commit
deriving DecidableEq, Repr

/-- `create_job`'s body in source order: `session.add(job); session.flush()`,
`repo.log_job_event(...)`, `session.add(outbox_message)`, `session.commit()`. -/
def cjScript : List CjStep := [.addJob, .logEvent, .addOutbox, .commit]

/-- The `Job` row `create_job` constructs (`attempt`, `max_attempts`,
`backoff_policy`, `priority`, timestamps take their column defaults). -/
def cjJobRow (org_id user_id : String) (request : JobCreateRequest)
    (job_key job_id : String) (now : Nat) : JobRow :=
  { id := job_id, org_id := org_id, type := request.type, status := .queued,
    attempt := 0, max_attempts := 5, backoff_policy := .exponential,
    priority := 0, idempotency_key := none, job_key := some job_key,
    requested_by := some user_id, created_at := now, updated_at := now,
    started_at := none, finished_at := none, last_error_code := none,
    last_error_message := none }

/-- The outbox payload `create_job` writes:
`{"queue_name": "default", "args": (str(job.id), request.fail_at_stage),
"kwargs": {}, "options": {}}`. -/
def cjOutboxPayload (job_id : String) (request : JobCreateRequest) : OutboxPayload :=
  { queue_name := "default", arg_job_id := job_id,
    arg_fail_at_stage := request.fail_at_stage }

/-- One effect of `create_job`'s transaction body applied to the session. -/
def applyCjStep (org_id user_id : String) (request : JobCreateRequest)
    (job_key job_id event_id : String) (now : Nat) (t : Txn) : CjStep → Txn
  | .addJob =>
      { t with pending := { t.pending with
          jobs := t.pending.jobs ++ [cjJobRow org_id user_id request job_key job_id now] } }
  | .logEvent =>
      { t with pending := log_job_event t.pending job_id none "queued" none event_id now }
  | .addOutbox =>
      { t with pending := { t.pending with
          outbox := t.pending.outbox ++
            [{ id := t.pending.outboxSeq, job_id := job_id,
               task_name := "process_mock",
               payload := cjOutboxPayload job_id request, sent_at := none,
               fail_count := 0, last_error := none, created_at := now }],
          outboxSeq := t.pending.outboxSeq + 1 } }
  | .commit => { t with committed := t.pending }

/-- `create_job` (`POST /jobs`), successful execution: compute the job key
from `(org_id, type)`, return the existing job's id on a key hit, otherwise
run the transaction body to completion (its final `session.commit()` and the
no-op commit in `get_db` both publish the same pending state). -/
def create_job (db : DbState) (org_id user_id : String)
    (request : JobCreateRequest) (job_id event_id : String) (now : Nat) :
    DbState × String :=
  let job_key := make_job_key org_id request.type (payload_for_key request)
  match get_job_by_job_key db job_key with
  | some existing => (db, existing.id)
  | none =>
      ((cjScript.foldl (applyCjStep org_id user_id request job_key job_id event_id now)
          ⟨db, db⟩).committed, job_id)

/-- `create_job` when an exception interrupts the transaction body after its
first `k` effects: `get_db` catches, rolls the session back and re-raises, so
only the effect of an executed `session.commit()` persists. -/
def create_job_crashed (db : DbState) (org_id user_id : String)
    (request : JobCreateRequest) (job_id event_id : String) (now : Nat)
    (k : Nat) : DbState :=
  let job_key := make_job_key org_id request.type (payload_for_key request)
  match get_job_by_job_key db job_key with
  | some _ => db
  | none =>
      (((cjScript.take k).foldl
          (applyCjStep org_id user_id request job_key job_id event_id now)
          ⟨db, db⟩).committed)

/-! ## Status reader (`heimdex_api/jobs.py` — `get_job_status`) -/

/-- `JobStatusResponse` — the client-facing view. -/
structure JobStatusView where
  id : String
  status : String
  stage : Option String
  progress : Nat
  result : Option MockResult
  error : Option String
  created_at : Nat
  updated_at : Nat
deriving DecidableEq, Repr

/-- The backward-compatible `status_mapping` dict of `get_job_status`. -/
def status_mapping : JobStatus → String
  | .queued => "pending"
  | .running => "processing"
  | .succeeded => "completed"
  | .failed => "failed"
  | .canceled => "canceled"
  | .dead_letter => "failed"

/-- `GET /jobs/{job_id}`: 404 when the job is missing, 403 on a tenant
mismatch, otherwise the view composed from the job row and the latest event's
detail blob. -/
def get_job_status (db : DbState) (job_id : String) (ctx_org_id : String) :
    Except (Nat × String) JobStatusView :=
  match get_job_by_id db job_id with
  | none => .error (404, "Job not found")
  | some job =>
    if job.org_id ≠ ctx_org_id then .error (403, "Access denied")
    else
      let details : Detail :=
        match get_latest_job_event db job.id with
        | some ev => ev.detail_json.getD {}
        | none => {}
      .ok { id := job.id, status := status_mapping job.status,
            stage := details.stage, progress := details.progress.getD 0,
            result := details.result, error := job.last_error_message,
            created_at := job.created_at, updated_at := job.updated_at }

/-! ## Worker (`heimdex_worker/tasks.py`)

`_update_job_status` opens its own `get_db` transaction per call; a
`ValueError` from the repository (`none` below) rolls that transaction back
and propagates.  `process_mock` is the Dramatiq actor: the returned state is
the durable database after the delivery, `raised` records whether an
exception escaped to the broker (triggering redelivery). -/

/-- `STAGE_DURATIONS` of `tasks.py` in iteration order. -/
def STAGE_DURATIONS : List (String × Nat) :=
  [("extracting", 2), ("analyzing", 3), ("indexing", 1)]

/-- `_update_job_status` of `tasks.py` (named `worker_update_job_status`
here): dispatches on which arguments are present, exactly as the source's
`if result is not None or error is not None / elif stage ... / elif status`
chain does. -/
def worker_update_job_status (db : DbState) (job_id : String)
    (status : Option JobStatus) (stage : Option String) (progress : Option Nat)
    (result : Option MockResult) (error : Option String)
    (event_id : String) (now : Nat) : Option DbState :=
  if result ≠ none ∨ error ≠ none then
    let event_detail : Detail := { stage := stage, progress := progress, result := result }
    match status with
    | some s =>
        update_job_status db job_id (some s) none error none none true
          (if event_detail.isEmpty then none else some event_detail) event_id now
    | none => some db
  else if stage ≠ none ∧ progress ≠ none then
    update_job_with_stage_progress db job_id status stage progress none none event_id now
  else
    match status with
    | some s => update_job_status db job_id (some s) none error none none true none event_id now
    | none => some db

/-- The outcome of one broker delivery to `process_mock`. -/
structure MockOutcome where
  db : DbState
  raised : Bool
deriving DecidableEq, Repr

/-- The `except Exception` handler of `process_mock`:
`_update_job_status(job_id, status=FAILED, error=str(e), stage="error")`,
then re-raise.  If that update itself raises, its transaction rolls back and
the new exception propagates. -/
def mockExceptHandler (db : DbState) (job_id msg : String)
    (event_id : String) (now : Nat) : MockOutcome :=
  match worker_update_job_status db job_id (some .failed) (some "error") none
          none (some msg) event_id now with
  | some db2 => ⟨db2, true⟩
  | none => ⟨db, true⟩

/-- The stage loop and completion of `process_mock`'s `try` body.  Per stage:
report `stage`/`progress`, then fail deterministically when the stage matches
`fail_at_stage` (status `FAILED`, then `raise`, caught by the outer handler);
after all stages, report `SUCCEEDED` with the result blob. -/
def mockLoop (job_id : String) (fail_at_stage : Option String)
    (event_id : String) (now : Nat) (now_iso : String) :
    List (String × Nat) → Nat → DbState → MockOutcome
  | [], elapsed_time, db =>
      let result : MockResult :=
        { stages_completed := STAGE_DURATIONS.map Prod.fst,
          total_duration_seconds := elapsed_time, completed_at := now_iso }
      match worker_update_job_status db job_id (some .succeeded) (some "finished")
              (some 100) (some result) none event_id now with
      | some db2 => ⟨db2, false⟩
      | none => mockExceptHandler db job_id ("Job " ++ job_id ++ " not found") event_id now
  | (stage, duration) :: rest, elapsed_time, db =>
      let total_duration := (STAGE_DURATIONS.map Prod.snd).sum
      let progress := elapsed_time * 100 / total_duration
      match worker_update_job_status db job_id none (some stage) (some progress)
              none none event_id now with
      | none => mockExceptHandler db job_id ("Job " ++ job_id ++ " not found") event_id now
      | some db1 =>
        if some stage == fail_at_stage then
          let error_msg := "Deterministic failure at stage: " ++ stage
          match worker_update_job_status db1 job_id (some .failed) none none
                  none (some error_msg) event_id now with
          | some db2 => mockExceptHandler db2 job_id error_msg event_id now
          | none => mockExceptHandler db1 job_id ("Job " ++ job_id ++ " not found") event_id now
        else
          mockLoop job_id fail_at_stage event_id now now_iso rest (elapsed_time + duration) db1

/-- The `process_mock` Dramatiq actor: terminal-state guard, then transition
to `RUNNING` and run the stage loop inside `try/except`. -/
def process_mock (db : DbState) (job_id : String) (fail_at_stage : Option String)
    (event_id : String) (now : Nat) (now_iso : String) : MockOutcome :=
  match get_job_by_id db job_id with
  | none => ⟨db, false⟩
  | some job =>
    if job.status ∈ terminal_states then ⟨db, false⟩
    else
      match worker_update_job_status db job_id (some .running) (some "starting")
              (some 0) none none event_id now with
      | none => mockExceptHandler db job_id ("Job " ++ job_id ++ " not found") event_id now
      | some db1 =>
          mockLoop job_id fail_at_stage event_id now now_iso STAGE_DURATIONS 0 db1

/-! ## Outbox dispatcher (`heimdex_api/outbox_dispatcher.py`)

One `dispatch_outbox_messages` tick.  `publish` abstracts `broker.enqueue`
(`none` = success, `some e` = the exception text of a failed publish); per-row
failures are caught in the loop and never abort the tick, and the session
commit at the end of the tick publishes every row update at once. -/

/-- The body of the dispatcher's per-row loop: build the Dramatiq message,
publish, then mark the row sent, or record the failure
(`error_msg = f"{type(e).__name__}: {e!s}"` is the abstract failure text)
without aborting the loop. -/
def dispatchStep (publish : OutboxRow → Option String) (now : Nat)
    (acc : DbState × Nat × Nat) (msg : OutboxRow) : DbState × Nat × Nat :=
  match publish msg with
  | none => (mark_outbox_sent acc.1 msg.id now, acc.2.1 + 1, acc.2.2)
  | some e => (mark_outbox_failed acc.1 msg.id e, acc.2.1, acc.2.2 + 1)

/-- `dispatch_outbox_messages`: claim up to 100 pending rows, publish each,
mark sent or failed, count both, commit. -/
def dispatch_outbox_messages (db : DbState) (publish : OutboxRow → Option String)
    (now : Nat) : DbState × Nat × Nat :=
  let unsent_messages := get_unsent_outbox_messages db 100
  unsent_messages.foldl (dispatchStep publish now) (db, 0, 0)

/-- The net effect of one dispatcher iteration on its claimed row: `sent_at`
set on a successful publish, `fail_count` bumped and the truncated error
recorded on a failed one. -/
def outboxApplyOutcome (publish : OutboxRow → Option String) (now : Nat)
    (r : OutboxRow) : OutboxRow :=
  match publish r with
  | none => { r with sent_at := some now }
  | some e =>
      { r with fail_count := r.fail_count + 1, last_error := some (truncate2048 e) }

/-! ## Concrete instances used by witnesses and counterexamples -/

/-- A job owned by `orgB`, for the C4 witness. -/
def c4row : JobRow :=
  { id := "11111111-1111-1111-1111-111111111111", org_id := "orgB",
    type := "mock_process", status := .queued, attempt := 0, max_attempts := 5,
    backoff_policy := .exponential, priority := 0, idempotency_key := none,
    job_key := some "k", requested_by := some "u", created_at := 1,
    updated_at := 1, started_at := none, finished_at := none,
    last_error_code := none, last_error_message := none }

def c4db : DbState := { jobs := [c4row], events := [], outbox := [], outboxSeq := 1 }

def c1req : JobCreateRequest := { type := "mock_process", fail_at_stage := none }

def c1db : DbState := { jobs := [], events := [], outbox := [], outboxSeq := 1 }

def c2req : JobCreateRequest := { type := "mock_process", fail_at_stage := none }

/-- A job already `succeeded`, for the C3 witness. -/
def c3row : JobRow :=
  { id := "J1", org_id := "orgA", type := "mock_process", status := .succeeded,
    attempt := 0, max_attempts := 5, backoff_policy := .exponential,
    priority := 0, idempotency_key := none, job_key := some "k3",
    requested_by := some "u", created_at := 1, updated_at := 2,
    started_at := some 1, finished_at := some 2, last_error_code := none,
    last_error_message := none }

def c3db : DbState := { jobs := [c3row], events := [], outbox := [], outboxSeq := 1 }

/-- A queued job with `max_attempts = 2`, the C6 failing input (§8 S5 of the
spec: submit with `fail_at="extracting"`, `max_attempts=2`). -/
def c6row : JobRow :=
  { id := "J1", org_id := "orgA", type := "mock_process", status := .queued,
    attempt := 0, max_attempts := 2, backoff_policy := .exponential,
    priority := 0, idempotency_key := none, job_key := some "k6",
    requested_by := some "u", created_at := 1, updated_at := 1,
    started_at := none, finished_at := none, last_error_code := none,
    last_error_message := none }

def c6db : DbState := { jobs := [c6row], events := [], outbox := [], outboxSeq := 1 }

/-- First broker delivery: the handler fails deterministically at
`extracting`, so the worker marks the job `failed` and rethrows. -/
def c6delivery1 : MockOutcome := process_mock c6db "J1" (some "extracting") "E1" 10 "t10"

/-- The broker's redelivery of the same message after the rethrow. -/
def c6delivery2 : MockOutcome := process_mock c6delivery1.db "J1" (some "extracting") "E2" 20 "t20"

/-- A queued job, the C7 failing input: a plain successful run. -/
def c7row : JobRow :=
  { id := "J1", org_id := "orgA", type := "mock_process", status := .queued,
    attempt := 0, max_attempts := 5, backoff_policy := .exponential,
    priority := 0, idempotency_key := none, job_key := some "k7",
    requested_by := some "u", created_at := 1, updated_at := 1,
    started_at := none, finished_at := none, last_error_code := none,
    last_error_message := none }

def c7db : DbState := { jobs := [c7row], events := [], outbox := [], outboxSeq := 1 }

/-- One successful delivery of the job's broker message. -/
def c7delivery : MockOutcome := process_mock c7db "J1" none "E1" 10 "t10"

/-- Two pending outbox rows and one already-sent row, for the C5 witness. -/
def c5rowA : OutboxRow :=
  { id := 1, job_id := "JA", task_name := "process_mock",
    payload := { queue_name := "default", arg_job_id := "JA",
                 arg_fail_at_stage := none },
    sent_at := none, fail_count := 0, last_error := none, created_at := 3 }

def c5rowB : OutboxRow :=
  { id := 2, job_id := "JB", task_name := "process_mock",
    payload := { queue_name := "default", arg_job_id := "JB",
                 arg_fail_at_stage := none },
    sent_at := none, fail_count := 0, last_error := none, created_at := 4 }

def c5rowC : OutboxRow :=
  { id := 3, job_id := "JC", task_name := "process_mock",
    payload := { queue_name := "default", arg_job_id := "JC",
                 arg_fail_at_stage := none },
    sent_at := some 2, fail_count := 0, last_error := none, created_at := 1 }

def c5db : DbState :=
  { jobs := [], events := [], outbox := [c5rowA, c5rowB, c5rowC], outboxSeq := 4 }

/-- A publish outcome making row 1 succeed and row 2 fail. -/
def c5publish (r : OutboxRow) : Option String :=
  if r.id == 2 then some "ConnectionError: redis unreachable" else none

/-- Two payloads equal as mappings but with different insertion order, for the
C8 witness. -/
def c8p : List (String × JVal) := [("b", .jint 2), ("a", .jstr "x")]

def c8q : List (String × JVal) := [("a", .jstr "x"), ("b", .jint 2)]

/-! ## General lemmas: lookup after a keyed in-place update

Both ORM row mutations (`updateJobRows`, `mark_outbox_sent`,
`mark_outbox_failed`) map a guard-update over the table; these lemmas move a
`find?` lookup across such an update. -/

theorem find?_guardUpdate {α β : Type} [BEq β] [LawfulBEq β] (l : List α)
    (key : α → β) (i k : β) (f : α → α) (hf : ∀ x, key (f x) = key x) :
    (l.map (fun x => if key x == i then f x else x)).find? (fun x => key x == k)
      = (l.find? (fun x => key x == k)).map
          (fun x => if key x == i then f x else x) := by
  rw [List.find?_map]
  have hpu : ((fun x => key x == k) ∘ fun x => if key x == i then f x else x)
      = fun x => key x == k := by
    funext x
    by_cases h : key x == i
    · simp [Function.comp, h, hf]
    · simp [Function.comp, h]
  rw [hpu]

theorem find?_guardUpdate_other {α β : Type} [BEq β] [LawfulBEq β] (l : List α)
    (key : α → β) (i k : β) (f : α → α) (hf : ∀ x, key (f x) = key x)
    (hne : k ≠ i) :
    (l.map (fun x => if key x == i then f x else x)).find? (fun x => key x == k)
      = l.find? (fun x => key x == k) := by
  rw [find?_guardUpdate l key i k f hf]
  cases hfind : l.find? (fun x => key x == k) with
  | none => rfl
  | some x =>
      have hx : key x = k := by
        have := List.find?_some hfind
        simpa using this
      have : (key x == i) = false := by
        simp [hx]
        exact hne
      simp [this]

theorem find?_guardUpdate_self {α β : Type} [BEq β] [LawfulBEq β] (l : List α)
    (key : α → β) (i : β) (f : α → α) (hf : ∀ x, key (f x) = key x) (x : α)
    (hfind : l.find? (fun a => key a == i) = some x) :
    (l.map (fun a => if key a == i then f a else a)).find? (fun a => key a == i)
      = some (f x) := by
  rw [find?_guardUpdate l key i i f hf, hfind]
  have hx := List.find?_some hfind
  simp at hx
  simp [hx]

/-- In a table with distinct keys, a row is found by its own key. -/
theorem find?_self_of_nodup {α β : Type} [BEq β] [LawfulBEq β]
    (key : α → β) (l : List α) (hnd : (l.map key).Nodup) (r : α) (hr : r ∈ l) :
    l.find? (fun a => key a == key r) = some r := by
  induction l with
  | nil => cases hr
  | cons hd tl ih =>
      rcases List.mem_cons.mp hr with rfl | hrt
      · exact List.find?_cons_of_pos _ (by simp)
      · have hnd2 := hnd
        rw [List.map_cons, List.nodup_cons] at hnd2
        have hne : key hd ≠ key r := fun h => hnd2.1 (h ▸ List.mem_map_of_mem key hrt)
        have : (key hd == key r) = false := by simpa using hne
        rw [List.find?_cons_of_neg _ (by simp [this])]
        exact ih hnd2.2 hrt

/-! ## C4 — tenant isolation on status reads -/

/-- C4: for every job `J` and caller org `A ≠ J.org_id`, `get_status(J.id, A)`
fails with Forbidden (403) and returns the constant error body (no job data);
a lookup for an absent job id fails with NotFound (404). -/
theorem C4_tenant_isolation (db : DbState) (job_id caller : String) :
    (∀ job, get_job_by_id db job_id = some job → job.org_id ≠ caller →
        get_job_status db job_id caller = .error (403, "Access denied"))
    ∧ (get_job_by_id db job_id = none →
        get_job_status db job_id caller = .error (404, "Job not found")) := by
  constructor
  · intro job hfind hne
    simp [get_job_status, hfind, hne]
  · intro hnone
    simp [get_job_status, hnone]

theorem C4_tenant_isolation_witness :
    get_job_status c4db "11111111-1111-1111-1111-111111111111" "orgA"
        = .error (403, "Access denied")
    ∧ get_job_status c4db "22222222-2222-2222-2222-222222222222" "orgA"
        = .error (404, "Job not found") :=
  ⟨(C4_tenant_isolation c4db "11111111-1111-1111-1111-111111111111" "orgA").1
      c4row (by decide) (by decide),
   (C4_tenant_isolation c4db "22222222-2222-2222-2222-222222222222" "orgA").2
      (by decide)⟩

/-! ## C1 — atomicity of submit -/

/-- C1: when no job with the computed key exists, a successful `create_job`
commits exactly the new Job row, the initial `null → queued` JobEvent and the
Outbox row, the new row being visible to readers; and a crash after any
prefix of the transaction body that excludes `session.commit()` (the fourth
and last effect, so `k ≤ 3`) leaves the database exactly as it was. -/
theorem C1_submit_atomic (db : DbState) (org user : String)
    (request : JobCreateRequest) (jid eid : String) (now k : Nat)
    (hmiss : get_job_by_job_key db
        (make_job_key org request.type (payload_for_key request)) = none)
    (hfresh : ∀ j ∈ db.jobs, j.id ≠ jid)
    (hk : k ≤ 3) :
    (create_job db org user request jid eid now).1 =
      { jobs := db.jobs ++
          [cjJobRow org user request
              (make_job_key org request.type (payload_for_key request)) jid now],
        events := db.events ++
          [{ id := eid, job_id := jid, ts := now, prev_status := none,
             next_status := "queued", detail_json := none }],
        outbox := db.outbox ++
          [{ id := db.outboxSeq, job_id := jid, task_name := "process_mock",
             payload := cjOutboxPayload jid request, sent_at := none,
             fail_count := 0, last_error := none, created_at := now }],
        outboxSeq := db.outboxSeq + 1 }
    ∧ get_job_by_id (create_job db org user request jid eid now).1 jid =
        some (cjJobRow org user request
            (make_job_key org request.type (payload_for_key request)) jid now)
    ∧ create_job_crashed db org user request jid eid now k = db := by
  refine ⟨?_, ?_, ?_⟩
  · simp [create_job, hmiss, cjScript, applyCjStep, log_job_event]
  · have hnone : db.jobs.find? (fun j => j.id == jid) = none :=
      List.find?_eq_none.mpr (fun j hj => by simpa using hfresh j hj)
    simp only [create_job, hmiss, cjScript, List.foldl_cons, List.foldl_nil,
      applyCjStep, log_job_event, get_job_by_id]
    rw [List.find?_append, hnone]
    simp [cjJobRow]
  · interval_cases k <;>
      simp [create_job_crashed, hmiss, cjScript, applyCjStep, log_job_event]

theorem C1_submit_atomic_witness :
    (create_job c1db "orgA" "userA" c1req "J1" "E1" 10).1 =
      { jobs := [cjJobRow "orgA" "userA" c1req
            (make_job_key "orgA" c1req.type (payload_for_key c1req)) "J1" 10],
        events := [{ id := "E1", job_id := "J1", ts := 10, prev_status := none,
                     next_status := "queued", detail_json := none }],
        outbox := [{ id := 1, job_id := "J1", task_name := "process_mock",
                     payload := cjOutboxPayload "J1" c1req, sent_at := none,
                     fail_count := 0, last_error := none, created_at := 10 }],
        outboxSeq := 2 }
    ∧ get_job_by_id (create_job c1db "orgA" "userA" c1req "J1" "E1" 10).1 "J1" =
        some (cjJobRow "orgA" "userA" c1req
            (make_job_key "orgA" c1req.type (payload_for_key c1req)) "J1" 10)
    ∧ create_job_crashed c1db "orgA" "userA" c1req "J1" "E1" 10 2 = c1db := by
  have h := C1_submit_atomic c1db "orgA" "userA" c1req "J1" "E1" 10 2
    rfl (by intro j hj; cases hj) (by decide)
  simpa [c1db] using h

/-! ## C2 / C10 — idempotent submit, and the key ignoring `fail_at_stage` -/

/-- Two successive `create_job` calls whose requests share the `type` field
return the same `job_id`, and the second call leaves the database untouched:
the key computed by the second call equals the first call's key, so the
lookup hits either the pre-existing job or the job the first call inserted. -/
theorem create_job_second_call (db : DbState) (org user : String)
    (r1 r2 : JobCreateRequest) (j1 e1 j2 e2 : String) (n1 n2 : Nat)
    (htype : r2.type = r1.type) :
    (create_job (create_job db org user r1 j1 e1 n1).1 org user r2 j2 e2 n2).2
      = (create_job db org user r1 j1 e1 n1).2
    ∧ (create_job (create_job db org user r1 j1 e1 n1).1 org user r2 j2 e2 n2).1
      = (create_job db org user r1 j1 e1 n1).1 := by
  have hpk : payload_for_key r2 = payload_for_key r1 := by
    simp [payload_for_key, htype]
  cases h : get_job_by_job_key db (make_job_key org r1.type (payload_for_key r1)) with
  | some ex =>
      constructor <;> simp [create_job, htype, hpk, h]
  | none =>
      have hfind : db.jobs.find?
          (fun j => j.job_key == some (make_job_key org r1.type (payload_for_key r1)))
          = none := h
      constructor <;>
        simp [create_job, htype, hpk, h, cjScript, List.foldl_cons, List.foldl_nil,
          applyCjStep, log_job_event, get_job_by_job_key, List.find?_append, hfind,
          cjJobRow]

/-- C2: submit is idempotent — the second of two submits with the same
`(org, type)` returns the first submit's `job_id` without touching the
database; a key hit returns the existing job's id with no new row and no
event; and starting from a state with no job under the key, one submit leaves
exactly one job carrying the key and exactly one new row. -/
theorem C2_idempotent_submit (db : DbState) (org user : String)
    (r1 r2 : JobCreateRequest) (j1 e1 j2 e2 : String) (n1 n2 : Nat)
    (htype : r2.type = r1.type) :
    (create_job (create_job db org user r1 j1 e1 n1).1 org user r2 j2 e2 n2).2
      = (create_job db org user r1 j1 e1 n1).2
    ∧ (create_job (create_job db org user r1 j1 e1 n1).1 org user r2 j2 e2 n2).1
      = (create_job db org user r1 j1 e1 n1).1
    ∧ (∀ ex, get_job_by_job_key db
          (make_job_key org r1.type (payload_for_key r1)) = some ex →
        create_job db org user r1 j1 e1 n1 = (db, ex.id))
    ∧ (get_job_by_job_key db
          (make_job_key org r1.type (payload_for_key r1)) = none →
        ((create_job db org user r1 j1 e1 n1).1.jobs.filter
            (fun j => j.job_key ==
              some (make_job_key org r1.type (payload_for_key r1)))).length = 1
        ∧ (create_job db org user r1 j1 e1 n1).1.jobs.length
            = db.jobs.length + 1) := by
  refine ⟨(create_job_second_call db org user r1 r2 j1 e1 j2 e2 n1 n2 htype).1,
    (create_job_second_call db org user r1 r2 j1 e1 j2 e2 n1 n2 htype).2, ?_, ?_⟩
  · intro ex hex
    simp [create_job, hex]
  · intro h
    have hfilter : db.jobs.filter
        (fun j => j.job_key == some (make_job_key org r1.type (payload_for_key r1)))
        = [] := by
      rw [List.filter_eq_nil_iff]
      exact fun j hj => List.find?_eq_none.mp h j hj
    constructor <;>
      simp [create_job, h, cjScript, List.foldl_cons, List.foldl_nil, applyCjStep,
        log_job_event, List.filter_append, hfilter, cjJobRow]

theorem C2_idempotent_submit_witness :
    (create_job (create_job ⟨[], [], [], 1⟩ "orgA" "u" c2req "J1" "E1" 10).1
        "orgA" "u" c2req "J2" "E2" 11).2
      = (create_job ⟨[], [], [], 1⟩ "orgA" "u" c2req "J1" "E1" 10).2
    ∧ (create_job (create_job ⟨[], [], [], 1⟩ "orgA" "u" c2req "J1" "E1" 10).1
        "orgA" "u" c2req "J2" "E2" 11).1
      = (create_job ⟨[], [], [], 1⟩ "orgA" "u" c2req "J1" "E1" 10).1
    ∧ (∀ ex, get_job_by_job_key ⟨[], [], [], 1⟩
          (make_job_key "orgA" c2req.type (payload_for_key c2req)) = some ex →
        create_job ⟨[], [], [], 1⟩ "orgA" "u" c2req "J1" "E1" 10 = (⟨[], [], [], 1⟩, ex.id))
    ∧ (get_job_by_job_key ⟨[], [], [], 1⟩
          (make_job_key "orgA" c2req.type (payload_for_key c2req)) = none →
        ((create_job ⟨[], [], [], 1⟩ "orgA" "u" c2req "J1" "E1" 10).1.jobs.filter
            (fun j => j.job_key ==
              some (make_job_key "orgA" c2req.type (payload_for_key c2req)))).length = 1
        ∧ (create_job ⟨[], [], [], 1⟩ "orgA" "u" c2req "J1" "E1" 10).1.jobs.length
            = ([] : List JobRow).length + 1) :=
  C2_idempotent_submit ⟨[], [], [], 1⟩ "orgA" "u" c2req c2req "J1" "E1" "J2" "E2" 10 11 rfl

/-- C10: the payload hashed into the job key contains only the request's
`type` field, so two requests by the same org with the same `type` but
different `fail_at_stage` values produce the same key and the second submit
resolves to the job of the first. -/
theorem C10_key_ignores_fail_at_stage (db : DbState) (org user t : String)
    (f1 f2 : Option String) (j1 e1 j2 e2 : String) (n1 n2 : Nat) :
    payload_for_key ⟨t, f1⟩ = payload_for_key ⟨t, f2⟩
    ∧ make_job_key org t (payload_for_key ⟨t, f1⟩)
        = make_job_key org t (payload_for_key ⟨t, f2⟩)
    ∧ (create_job (create_job db org user ⟨t, f1⟩ j1 e1 n1).1 org user ⟨t, f2⟩
          j2 e2 n2).2
        = (create_job db org user ⟨t, f1⟩ j1 e1 n1).2 :=
  ⟨rfl, rfl,
   (create_job_second_call db org user ⟨t, f1⟩ ⟨t, f2⟩ j1 e1 j2 e2 n1 n2 rfl).1⟩

/-! ## Worker lemmas: every `_update_job_status` call keeps the job present
and leaves the expected status -/

theorem applyJobFieldUpdates_preserve_id (st : Option JobStatus)
    (lec lem : Option String) (sa fa : Option Nat) (now : Nat) (j : JobRow) :
    (applyJobFieldUpdates st lec lem sa fa now j).id = j.id := by
  cases st <;> cases lec <;> cases lem <;> cases sa <;> cases fa <;> rfl

theorem applyJobFieldUpdates_status (st : Option JobStatus)
    (lec lem : Option String) (sa fa : Option Nat) (now : Nat) (j : JobRow) :
    (applyJobFieldUpdates st lec lem sa fa now j).status = st.getD j.status := by
  cases st <;> cases lec <;> cases lem <;> cases sa <;> cases fa <;> rfl

/-- `update_job_status` with a located row succeeds and the row reads back
mutated by `applyJobFieldUpdates`. -/
theorem update_job_status_run (db : DbState) (i : String) (st : Option JobStatus)
    (lec lem : Option String) (sa fa : Option Nat) (le : Bool)
    (d : Option Detail) (eid : String) (now : Nat) (j : JobRow)
    (hfind : get_job_by_id db i = some j) :
    ∃ db2, update_job_status db i st lec lem sa fa le d eid now = some db2
      ∧ get_job_by_id db2 i = some (applyJobFieldUpdates st lec lem sa fa now j) := by
  have hfind2 : db.jobs.find? (fun a => a.id == i) = some j := hfind
  have hlook : (updateJobRows db.jobs i
        (applyJobFieldUpdates st lec lem sa fa now)).find? (fun a => a.id == i)
      = some (applyJobFieldUpdates st lec lem sa fa now j) := by
    simp only [updateJobRows]
    exact find?_guardUpdate_self db.jobs (fun x => x.id) i _
      (fun x => applyJobFieldUpdates_preserve_id st lec lem sa fa now x) j hfind2
  simp only [update_job_status, hfind]
  cases st with
  | none => exact ⟨_, rfl, hlook⟩
  | some s =>
      dsimp only
      by_cases hc : le = true ∧ j.status ≠ s
      · rw [if_pos hc]
        exact ⟨_, rfl, hlook⟩
      · rw [if_neg hc]
        exact ⟨_, rfl, hlook⟩

/-- `update_job_with_stage_progress` with a located row succeeds; the row
reads back with the supplied status (or unchanged status when none). -/
theorem update_job_with_stage_progress_run (db : DbState) (i : String)
    (st : Option JobStatus) (stage : Option String) (progress : Option Nat)
    (res : Option MockResult) (err : Option String) (eid : String) (now : Nat)
    (j : JobRow) (hfind : get_job_by_id db i = some j) :
    ∃ db2 j2, update_job_with_stage_progress db i st stage progress res err eid now
        = some db2
      ∧ get_job_by_id db2 i = some j2 ∧ j2.status = st.getD j.status := by
  simp only [update_job_with_stage_progress, hfind]
  obtain ⟨db2, heq, hlook⟩ := update_job_status_run db i st none err
    (if st = some .running ∧ j.status ≠ .running then some now else none)
    (match st with
     | some s => if s ∈ terminal_states then some now else none
     | none => none) true
    (if (Detail.mk stage progress res).isEmpty then none
     else some (Detail.mk stage progress res)) eid now j hfind
  exact ⟨db2, _, heq, hlook, applyJobFieldUpdates_status _ _ _ _ _ _ _⟩

/-- `_update_job_status` with a located row succeeds in every branch; the row
reads back with the supplied status (or unchanged status when none). -/
theorem worker_update_run (db : DbState) (i : String) (st : Option JobStatus)
    (stage : Option String) (progress : Option Nat) (res : Option MockResult)
    (err : Option String) (eid : String) (now : Nat) (j : JobRow)
    (hfind : get_job_by_id db i = some j) :
    ∃ db2 j2, worker_update_job_status db i st stage progress res err eid now
        = some db2
      ∧ get_job_by_id db2 i = some j2 ∧ j2.status = st.getD j.status := by
  unfold worker_update_job_status
  by_cases h1 : res ≠ none ∨ err ≠ none
  · rw [if_pos h1]
    cases st with
    | none => exact ⟨db, j, rfl, hfind, rfl⟩
    | some s =>
        obtain ⟨db2, heq, hlook⟩ := update_job_status_run db i (some s) none err
          none none true
          (if (Detail.mk stage progress res).isEmpty then none
           else some (Detail.mk stage progress res)) eid now j hfind
        exact ⟨db2, _, heq, hlook, applyJobFieldUpdates_status _ _ _ _ _ _ _⟩
  · rw [if_neg h1]
    by_cases h2 : stage ≠ none ∧ progress ≠ none
    · rw [if_pos h2]
      exact update_job_with_stage_progress_run db i st stage progress none none
        eid now j hfind
    · rw [if_neg h2]
      cases st with
      | none => exact ⟨db, j, rfl, hfind, rfl⟩
      | some s =>
          obtain ⟨db2, heq, hlook⟩ := update_job_status_run db i (some s) none err
            none none true none eid now j hfind
          exact ⟨db2, _, heq, hlook, applyJobFieldUpdates_status _ _ _ _ _ _ _⟩

/-! ## Worker run lemmas and C3 — idempotence under duplicate delivery -/

/-- The stage loop always leaves the job in a terminal status (`succeeded`
after the last stage, `failed` via the deterministic-failure branch). -/
theorem mockLoop_terminal (i : String) (failAt : Option String) (eid : String)
    (now : Nat) (iso : String) (stages : List (String × Nat)) :
    ∀ (elapsed : Nat) (db : DbState) (j : JobRow),
      get_job_by_id db i = some j →
      ∃ j2, get_job_by_id (mockLoop i failAt eid now iso stages elapsed db).db i
          = some j2 ∧ j2.status ∈ terminal_states := by
  induction stages with
  | nil =>
      intro elapsed db j hfind
      obtain ⟨db2, j2, heq, hlook, hst⟩ := worker_update_run db i (some .succeeded)
        (some "finished") (some 100)
        (some { stages_completed := STAGE_DURATIONS.map Prod.fst,
                total_duration_seconds := elapsed, completed_at := iso })
        none eid now j hfind
      simp only [mockLoop, heq]
      exact ⟨j2, hlook, by simp [terminal_states, hst]⟩
  | cons hd tl ih =>
      intro elapsed db j hfind
      obtain ⟨stage, duration⟩ := hd
      obtain ⟨db1, j1, heq1, hlook1, hst1⟩ := worker_update_run db i none
        (some stage) (some (elapsed * 100 / (STAGE_DURATIONS.map Prod.snd).sum))
        none none eid now j hfind
      simp only [mockLoop, heq1]
      by_cases hfail : (some stage == failAt) = true
      · rw [if_pos hfail]
        obtain ⟨db2, j2, heq2, hlook2, hst2⟩ := worker_update_run db1 i
          (some .failed) none none none
          (some ("Deterministic failure at stage: " ++ stage)) eid now j1 hlook1
        rw [heq2]
        obtain ⟨db3, j3, heq3, hlook3, hst3⟩ := worker_update_run db2 i
          (some .failed) (some "error") none none
          (some ("Deterministic failure at stage: " ++ stage)) eid now j2 hlook2
        simp only [mockExceptHandler, heq3]
        exact ⟨j3, hlook3, by simp [terminal_states, hst3]⟩
      · rw [if_neg hfail]
        exact ih (elapsed + duration) db1 j1 hlook1

/-- The terminal-state guard: a delivery for a job already in a terminal
status acks (`raised = false`) and leaves the database untouched. -/
theorem process_mock_of_terminal (db : DbState) (i : String)
    (failAt : Option String) (eid : String) (now : Nat) (iso : String)
    (j : JobRow) (hfind : get_job_by_id db i = some j)
    (hterm : j.status ∈ terminal_states) :
    process_mock db i failAt eid now iso = ⟨db, false⟩ := by
  simp [process_mock, hfind, hterm]

/-- A delivery for an unknown job id is a no-op. -/
theorem process_mock_of_missing (db : DbState) (i : String)
    (failAt : Option String) (eid : String) (now : Nat) (iso : String)
    (hfind : get_job_by_id db i = none) :
    process_mock db i failAt eid now iso = ⟨db, false⟩ := by
  simp [process_mock, hfind]

/-- A delivery that actually runs leaves the job in a terminal status. -/
theorem process_mock_terminal_after (db : DbState) (i : String)
    (failAt : Option String) (eid : String) (now : Nat) (iso : String)
    (j : JobRow) (hfind : get_job_by_id db i = some j)
    (hnterm : j.status ∉ terminal_states) :
    ∃ j2, get_job_by_id (process_mock db i failAt eid now iso).db i = some j2
      ∧ j2.status ∈ terminal_states := by
  obtain ⟨db1, j1, heq1, hlook1, hst1⟩ := worker_update_run db i (some .running)
    (some "starting") (some 0) none none eid now j hfind
  simp only [process_mock, hfind]
  rw [if_neg hnterm]
  simp only [heq1]
  exact mockLoop_terminal i failAt eid now iso STAGE_DURATIONS 0 db1 j1 hlook1

/-- C3: for every job in a terminal status, delivering its broker message
again makes `process_mock` read the row, observe the terminal status, and
return (ack) without mutating the ledger; hence delivering the same message
twice always yields the ledger state of the first delivery — no duplicate
terminal event. -/
theorem C3_worker_idempotent (db : DbState) (i : String) (failAt : Option String)
    (e1 : String) (n1 : Nat) (iso1 : String) (e2 : String) (n2 : Nat)
    (iso2 : String) :
    (∀ j, get_job_by_id db i = some j → j.status ∈ terminal_states →
        process_mock db i failAt e1 n1 iso1 = ⟨db, false⟩)
    ∧ (process_mock (process_mock db i failAt e1 n1 iso1).db i failAt e2 n2
          iso2).db
        = (process_mock db i failAt e1 n1 iso1).db := by
  constructor
  · intro j hfind hterm
    exact process_mock_of_terminal db i failAt e1 n1 iso1 j hfind hterm
  · cases hfind : get_job_by_id db i with
    | none =>
        rw [process_mock_of_missing db i failAt e1 n1 iso1 hfind]
        show (process_mock db i failAt e2 n2 iso2).db = db
        rw [process_mock_of_missing db i failAt e2 n2 iso2 hfind]
    | some j =>
        by_cases hterm : j.status ∈ terminal_states
        · rw [process_mock_of_terminal db i failAt e1 n1 iso1 j hfind hterm]
          show (process_mock db i failAt e2 n2 iso2).db = db
          rw [process_mock_of_terminal db i failAt e2 n2 iso2 j hfind hterm]
        · obtain ⟨j2, hlook2, hterm2⟩ :=
            process_mock_terminal_after db i failAt e1 n1 iso1 j hfind hterm
          rw [process_mock_of_terminal _ i failAt e2 n2 iso2 j2 hlook2 hterm2]

theorem C3_worker_idempotent_witness :
    process_mock c3db "J1" none "E1" 5 "t5" = ⟨c3db, false⟩
    ∧ (process_mock (process_mock c3db "J1" none "E1" 5 "t5").db "J1" none "E2"
          6 "t6").db
        = (process_mock c3db "J1" none "E1" 5 "t5").db :=
  ⟨(C3_worker_idempotent c3db "J1" none "E1" 5 "t5" "E2" 6 "t6").1 c3row
      (by decide) (by decide),
   (C3_worker_idempotent c3db "J1" none "E1" 5 "t5" "E2" 6 "t6").2⟩

/-! ## C6 — retry accounting (code bug)

The spec (§4.2, §4.6.6, §8.8, scenario S5) requires `attempt` to be bumped on
each `failed → queued` retry and the job to be moved to `dead_letter` once
`attempt ≥ max_attempts`.  The worker never calls
`JobRepository.increment_attempt`, and its terminal-state guard counts
`failed` among the terminal statuses, so the broker's redelivery after the
rethrow is a no-op: the job stays `failed` forever with `attempt = 0`, is
never requeued, and never reaches `dead_letter` — contradicting the code's
own comment ("When Dramatiq retries, the status will be updated back to
RUNNING") and the state machine in the `JobStatus` docstring. -/

/-- C6 counter-evaluation: on the S5 input (`fail_at="extracting"`,
`max_attempts=2`) the first delivery leaves `status=failed`, `attempt=0`, and
rethrows; the redelivery is acked as a no-op by the terminal-state guard, so
no `failed → queued` transition, no increment, and no `dead_letter` ever
happen. -/
theorem C6_retry_accounting_code_bug :
    (get_job_by_id c6delivery1.db "J1").map
        (fun j => (j.status, j.attempt, j.max_attempts)) = some (.failed, 0, 2)
    ∧ c6delivery1.raised = true
    ∧ c6delivery2 = ⟨c6delivery1.db, false⟩ := by
  decide

/-! ## C7 — terminal status ⇔ `finished_at` set (code bug)

The `result is not None or error is not None` branch of the worker's
`_update_job_status` calls `update_job_status` without `finished_at`, so both
the success path (`status=SUCCEEDED, result=...`) and the failure path
(`status=FAILED, error=...`) write a terminal status with `finished_at` still
NULL — violating the `status_finished_at_consistency` check constraint that
`models.py` itself declares on the `job` table. -/

/-- C7 counter-evaluation: a plain successful run ends with
`status = succeeded` and `finished_at = NULL`, falsifying the claimed
invariant and the schema's own check constraint. -/
theorem C7_finished_at_code_bug :
    (get_job_by_id c7delivery.db "J1").map
        (fun j => (j.status, j.finished_at, status_finished_at_consistency j))
      = some (.succeeded, none, false)
    ∧ c7delivery.raised = false := by
  decide

/-! ## C9 — event emission on status updates -/

/-- C9: with event logging requested (`log_event=True`, the default used at
every status-changing call site), a status-changing `update_job_status`
appends exactly one JobEvent carrying the previous and the next status, while
a same-status write succeeds and appends no JobEvent. -/
theorem C9_event_emission (db : DbState) (i : String) (s : JobStatus)
    (lec lem : Option String) (sa fa : Option Nat) (d : Option Detail)
    (eid : String) (now : Nat) (j : JobRow)
    (hfind : get_job_by_id db i = some j) :
    (j.status ≠ s →
      ∃ db2, update_job_status db i (some s) lec lem sa fa true d eid now
          = some db2
        ∧ db2.events = db.events ++
            [{ id := eid, job_id := i, ts := now,
               prev_status := some j.status.value, next_status := s.value,
               detail_json := d }])
    ∧ (∃ db2, update_job_status db i (some j.status) lec lem sa fa true d eid now
          = some db2 ∧ db2.events = db.events) := by
  constructor
  · intro hne
    simp only [update_job_status, hfind]
    rw [if_pos ⟨by trivial, hne⟩]
    exact ⟨_, rfl, rfl⟩
  · simp only [update_job_status, hfind]
    rw [if_neg (by simp)]
    exact ⟨_, rfl, rfl⟩

theorem C9_event_emission_witness :
    (c7row.status ≠ JobStatus.running →
      ∃ db2, update_job_status c7db "J1" (some .running) none none none none
          true none "E9" 99 = some db2
        ∧ db2.events = c7db.events ++
            [{ id := "E9", job_id := "J1", ts := 99,
               prev_status := some c7row.status.value,
               next_status := JobStatus.running.value, detail_json := none }])
    ∧ (∃ db2, update_job_status c7db "J1" (some c7row.status) none none none
          none true none "E9" 99 = some db2 ∧ db2.events = c7db.events) :=
  C9_event_emission c7db "J1" .running none none none none none "E9" 99 c7row
    (by decide)

/-! ## C5 — the dispatcher tick -/

/-- Rows whose id is not touched by a fold prefix keep their lookup result. -/
theorem dispatch_foldl_other (publish : OutboxRow → Option String) (now : Nat)
    (L : List OutboxRow) (k : Nat) (hk : k ∉ L.map OutboxRow.id) :
    ∀ acc : DbState × Nat × Nat,
      (L.foldl (dispatchStep publish now) acc).1.outbox.find?
          (fun x => x.id == k)
        = acc.1.outbox.find? (fun x => x.id == k) := by
  induction L with
  | nil => intro acc; rfl
  | cons hd tl ih =>
      intro acc
      have hk2 : k ∉ tl.map OutboxRow.id := fun h => hk (List.mem_cons_of_mem _ h)
      have hkhd : k ≠ hd.id := fun h => hk (by simp [h])
      rw [List.foldl_cons, ih (by exact hk2) _]
      unfold dispatchStep
      cases publish hd with
      | none =>
          simp only [mark_outbox_sent]
          exact find?_guardUpdate_other acc.1.outbox (fun x => x.id) hd.id k
            (fun x => { x with sent_at := some now }) (fun x => rfl) hkhd
      | some e =>
          simp only [mark_outbox_failed]
          exact find?_guardUpdate_other acc.1.outbox (fun x => x.id) hd.id k
            (fun x => { x with fail_count := x.fail_count + 1, last_error := some (truncate2048 e) }) (fun x => rfl) hkhd

/-- Every claimed row ends up updated by its own publish outcome, no matter
how the other rows' publishes fared. -/
theorem dispatch_foldl_self (publish : OutboxRow → Option String) (now : Nat)
    (L : List OutboxRow) (hL : (L.map OutboxRow.id).Nodup) :
    ∀ acc : DbState × Nat × Nat,
      (∀ r ∈ L, acc.1.outbox.find? (fun x => x.id == r.id) = some r) →
      ∀ r ∈ L, (L.foldl (dispatchStep publish now) acc).1.outbox.find?
          (fun x => x.id == r.id) = some (outboxApplyOutcome publish now r) := by
  induction L with
  | nil => intro acc _ r hr; cases hr
  | cons hd tl ih =>
      intro acc hacc r hr
      rw [List.map_cons, List.nodup_cons] at hL
      rcases List.mem_cons.mp hr with rfl | hrt
      · rw [List.foldl_cons, dispatch_foldl_other publish now tl r.id hL.1 _]
        have hfound := hacc r (List.mem_cons_self _ _)
        unfold dispatchStep outboxApplyOutcome
        cases publish r with
        | none =>
            simp only [mark_outbox_sent]
            exact find?_guardUpdate_self acc.1.outbox (fun x => x.id) r.id
              (fun x => { x with sent_at := some now }) (fun x => rfl) r hfound
        | some e =>
            simp only [mark_outbox_failed]
            exact find?_guardUpdate_self acc.1.outbox (fun x => x.id) r.id
              (fun x => { x with fail_count := x.fail_count + 1, last_error := some (truncate2048 e) }) (fun x => rfl) r hfound
      · rw [List.foldl_cons]
        refine ih hL.2 (dispatchStep publish now acc hd) ?_ r hrt
        intro q hq
        have hqne : q.id ≠ hd.id := fun h =>
          hL.1 (h ▸ List.mem_map_of_mem OutboxRow.id hq)
        have hq0 := hacc q (List.mem_cons_of_mem _ hq)
        unfold dispatchStep
        cases publish hd with
        | none =>
            simp only [mark_outbox_sent]
            rw [find?_guardUpdate_other acc.1.outbox (fun x => x.id) hd.id q.id
              (fun x => { x with sent_at := some now }) (fun x => rfl) hqne]
            exact hq0
        | some e =>
            simp only [mark_outbox_failed]
            rw [find?_guardUpdate_other acc.1.outbox (fun x => x.id) hd.id q.id
              (fun x => { x with fail_count := x.fail_count + 1, last_error := some (truncate2048 e) }) (fun x => rfl) hqne]
            exact hq0

/-- The tick touches outbox rows only: jobs and events pass through, and each
processed row bumps exactly one of the two counters. -/
theorem dispatch_foldl_frame (publish : OutboxRow → Option String) (now : Nat)
    (L : List OutboxRow) :
    ∀ acc : DbState × Nat × Nat,
      (L.foldl (dispatchStep publish now) acc).1.jobs = acc.1.jobs
      ∧ (L.foldl (dispatchStep publish now) acc).1.events = acc.1.events
      ∧ (L.foldl (dispatchStep publish now) acc).2.1
          + (L.foldl (dispatchStep publish now) acc).2.2
          = acc.2.1 + acc.2.2 + L.length := by
  induction L with
  | nil => intro acc; exact ⟨rfl, rfl, rfl⟩
  | cons hd tl ih =>
      intro acc
      rw [List.foldl_cons]
      obtain ⟨h1, h2, h3⟩ := ih (dispatchStep publish now acc hd)
      have hstep : (dispatchStep publish now acc hd).1.jobs = acc.1.jobs
          ∧ (dispatchStep publish now acc hd).1.events = acc.1.events
          ∧ (dispatchStep publish now acc hd).2.1
              + (dispatchStep publish now acc hd).2.2
              = acc.2.1 + acc.2.2 + 1 := by
        unfold dispatchStep
        cases publish hd with
        | none => exact ⟨rfl, rfl, by simp [mark_outbox_sent]; omega⟩
        | some e => exact ⟨rfl, rfl, by simp [mark_outbox_failed]; omega⟩
      refine ⟨h1.trans hstep.1, h2.trans hstep.2.1, ?_⟩
      rw [List.length_cons]
      have h4 := hstep.2.2
      omega

/-- A claimed row is a row of the outbox table. -/
theorem claimed_mem_outbox (db : DbState) (limit : Nat) (r : OutboxRow)
    (hr : r ∈ get_unsent_outbox_messages db limit) : r ∈ db.outbox := by
  unfold get_unsent_outbox_messages at hr
  have h1 := List.mem_of_mem_take hr
  have h2 := (List.perm_insertionSort
    (fun a b : OutboxRow => a.created_at ≤ b.created_at) _).mem_iff.mp h1
  exact List.mem_of_mem_filter h2

/-- Distinct outbox ids stay distinct across claiming. -/
theorem claimed_ids_nodup (db : DbState) (limit : Nat)
    (hnd : (db.outbox.map OutboxRow.id).Nodup) :
    ((get_unsent_outbox_messages db limit).map OutboxRow.id).Nodup := by
  unfold get_unsent_outbox_messages
  have hfilter : ((db.outbox.filter (fun r => r.sent_at == none)).map
      OutboxRow.id).Nodup :=
    List.Nodup.sublist ((List.filter_sublist _).map OutboxRow.id) hnd
  have hsort : (((db.outbox.filter (fun r => r.sent_at == none)).insertionSort
      (fun a b => a.created_at ≤ b.created_at)).map OutboxRow.id).Nodup :=
    (((List.perm_insertionSort _ _).map OutboxRow.id).nodup_iff).mpr hfilter
  exact List.Nodup.sublist ((List.take_sublist _ _).map OutboxRow.id) hsort

/-- C5: in one dispatcher tick over a table with distinct row ids, every
claimed pending row (`sent_at IS NULL`, ordered by `created_at`, at most 100)
is committed with `sent_at = now` if its publish succeeded, or with
`fail_count` incremented and the truncated error recorded if it failed —
independently of the other rows' outcomes; unclaimed rows, jobs and events
are untouched, and sent + failed counts account for every claimed row. -/
theorem C5_dispatcher_tick (db : DbState) (publish : OutboxRow → Option String)
    (now : Nat) (hnd : (db.outbox.map OutboxRow.id).Nodup) :
    (∀ r ∈ get_unsent_outbox_messages db 100,
        (dispatch_outbox_messages db publish now).1.outbox.find?
            (fun x => x.id == r.id)
          = some (outboxApplyOutcome publish now r))
    ∧ (∀ r ∈ db.outbox,
        r.id ∉ (get_unsent_outbox_messages db 100).map OutboxRow.id →
        (dispatch_outbox_messages db publish now).1.outbox.find?
            (fun x => x.id == r.id) = some r)
    ∧ (dispatch_outbox_messages db publish now).1.jobs = db.jobs
    ∧ (dispatch_outbox_messages db publish now).1.events = db.events
    ∧ (dispatch_outbox_messages db publish now).2.1
        + (dispatch_outbox_messages db publish now).2.2
        = (get_unsent_outbox_messages db 100).length
    ∧ (∀ e : String, (truncate2048 e).length ≤ 2048) := by
  have hclaimnd := claimed_ids_nodup db 100 hnd
  refine ⟨?_, ?_, (dispatch_foldl_frame publish now _ _).1,
    (dispatch_foldl_frame publish now _ _).2.1, ?_, ?_⟩
  · intro r hr
    exact dispatch_foldl_self publish now _ hclaimnd (db, 0, 0)
      (fun q hq => find?_self_of_nodup OutboxRow.id db.outbox hnd q
        (claimed_mem_outbox db 100 q hq)) r hr
  · intro r hr hnotin
    unfold dispatch_outbox_messages
    rw [dispatch_foldl_other publish now _ r.id hnotin (db, 0, 0)]
    exact find?_self_of_nodup OutboxRow.id db.outbox hnd r hr
  · have h := (dispatch_foldl_frame publish now
      (get_unsent_outbox_messages db 100) (db, 0, 0)).2.2
    simpa using h
  · intro e
    have : (truncate2048 e).length = (e.data.take 2048).length := rfl
    rw [this, List.length_take]
    exact min_le_left _ _

theorem C5_dispatcher_tick_witness :
    (∀ r ∈ get_unsent_outbox_messages c5db 100,
        (dispatch_outbox_messages c5db c5publish 20).1.outbox.find?
            (fun x => x.id == r.id)
          = some (outboxApplyOutcome c5publish 20 r))
    ∧ (∀ r ∈ c5db.outbox,
        r.id ∉ (get_unsent_outbox_messages c5db 100).map OutboxRow.id →
        (dispatch_outbox_messages c5db c5publish 20).1.outbox.find?
            (fun x => x.id == r.id) = some r)
    ∧ (dispatch_outbox_messages c5db c5publish 20).1.jobs = c5db.jobs
    ∧ (dispatch_outbox_messages c5db c5publish 20).1.events = c5db.events
    ∧ (dispatch_outbox_messages c5db c5publish 20).2.1
        + (dispatch_outbox_messages c5db c5publish 20).2.2
        = (get_unsent_outbox_messages c5db 100).length
    ∧ (∀ e : String, (truncate2048 e).length ≤ 2048) :=
  C5_dispatcher_tick c5db c5publish 20 (by decide)

/-! ## C8 — the job key derivation

Sanity anchors for the SHA-256 embedding: the two FIPS 180-2 test vectors,
kernel-checked. -/

set_option maxRecDepth 10000 in
theorem sha256_empty_vector :
    sha256HexBytes [] =
      "e3b0c44298fc1c149afbf4c8996fb92427ae41e4649b934ca495991b7852b855" := by
  decide

set_option maxRecDepth 10000 in
theorem sha256_abc_vector :
    sha256HexBytes (utf8Encode "abc") =
      "ba7816bf8f01cfea414140de5dae2223b00361a396177a9cb410ff61f20015ad" := by
  decide

instance : IsTotal (String × JVal) (fun a b => a.1 ≤ b.1) :=
  ⟨fun a b => le_total a.1 b.1⟩

instance : IsTrans (String × JVal) (fun a b => a.1 ≤ b.1) :=
  ⟨fun _ _ _ h1 h2 => le_trans h1 h2⟩

instance : IsAntisymm (String × JVal) (fun a b => a.1 < b.1) :=
  ⟨fun _ _ h1 h2 => absurd h2 (lt_asymm h1)⟩

theorem sortPairs_perm (l : List (String × JVal)) : (sortPairs l).Perm l :=
  List.perm_insertionSort _ l

theorem sortPairs_sorted (l : List (String × JVal)) :
    (sortPairs l).Sorted (fun a b => a.1 ≤ b.1) :=
  List.sorted_insertionSort _ l

/-- With pairwise-distinct keys, the sorted order is strictly increasing. -/
theorem sortPairs_sorted_lt (l : List (String × JVal))
    (hnd : (l.map Prod.fst).Nodup) :
    (sortPairs l).Sorted (fun a b => a.1 < b.1) := by
  have hnds : ((sortPairs l).map Prod.fst).Nodup :=
    (((sortPairs_perm l).map Prod.fst).nodup_iff).mpr hnd
  have hne : (sortPairs l).Pairwise (fun a b => a.1 ≠ b.1) :=
    List.pairwise_map.mp hnds
  exact ((sortPairs_sorted l).and hne).imp fun h => lt_of_le_of_ne h.1 h.2

/-- Two association lists equal as mappings (a permutation, distinct keys)
sort to the same list. -/
theorem sortPairs_eq_of_perm (p q : List (String × JVal)) (hperm : p.Perm q)
    (hnd : (p.map Prod.fst).Nodup) : sortPairs p = sortPairs q := by
  have hndq : (q.map Prod.fst).Nodup := ((hperm.map Prod.fst).nodup_iff).mp hnd
  exact List.eq_of_perm_of_sorted
    ((sortPairs_perm p).trans (hperm.trans (sortPairs_perm q).symm))
    (sortPairs_sorted_lt p hnd) (sortPairs_sorted_lt q hndq)

theorem stable_dumps_eq_of_perm (p q : List (String × JVal)) (hperm : p.Perm q)
    (hnd : (p.map Prod.fst).Nodup) : stable_dumps p = stable_dumps q := by
  unfold stable_dumps
  rw [sortPairs_eq_of_perm p q hperm hnd]

theorem nibChar_mem_hexDigitChars (n : Nat) : nibChar n ∈ hexDigitChars := by
  unfold nibChar
  have h : n % 16 < hexDigitChars.length := by
    have : n % 16 < 16 := Nat.mod_lt _ (by omega)
    simpa [hexDigitChars] using this
  rw [List.getD_eq_getElem hexDigitChars '0' h]
  exact List.getElem_mem h

theorem wordHex_length (w : Nat) : (wordHex w).length = 8 := rfl

theorem wordHex_mem (w : Nat) :
    ∀ c ∈ (wordHex w).data, c ∈ hexDigitChars := by
  intro c hc
  have hc2 : c ∈ [nibChar (w >>> 28), nibChar (w >>> 24), nibChar (w >>> 20),
      nibChar (w >>> 16), nibChar (w >>> 12), nibChar (w >>> 8),
      nibChar (w >>> 4), nibChar w] := hc
  simp only [List.mem_cons, List.not_mem_nil, or_false] at hc2
  rcases hc2 with h|h|h|h|h|h|h|h <;>
    · subst h; exact nibChar_mem_hexDigitChars _

/-- The hex digest always has 64 characters (the 32 digest bytes, two hex
digits each). -/
theorem sha256HexBytes_length (m : List Nat) : (sha256HexBytes m).length = 64 := by
  simp [sha256HexBytes, String.length_append, wordHex_length]

theorem sha256HexBytes_chars (m : List Nat) :
    ∀ c ∈ (sha256HexBytes m).data, c ∈ hexDigitChars := by
  intro c hc
  simp only [sha256HexBytes, String.data_append, List.mem_append] at hc
  rcases hc with ((((((h|h)|h)|h)|h)|h)|h)|h <;> exact wordHex_mem _ _ h

/-- C8: `make_job_key` is the SHA-256 hex digest (64 hex characters encoding
the 32 digest bytes) of the UTF-8 bytes of
`org_id ++ ":" ++ type ++ ":" ++ stable_dumps payload`, and any two payloads
equal as mappings — a permutation with distinct keys — hash to the same job
key. -/
theorem C8_make_job_key (org t : String) (p q : List (String × JVal))
    (hperm : p.Perm q) (hnd : (p.map Prod.fst).Nodup) :
    make_job_key org t p
        = sha256HexBytes (utf8Encode (org ++ ":" ++ t ++ ":" ++ stable_dumps p))
    ∧ (make_job_key org t p).length = 64
    ∧ (∀ c ∈ (make_job_key org t p).data, c ∈ hexDigitChars)
    ∧ make_job_key org t q = make_job_key org t p := by
  refine ⟨rfl, sha256HexBytes_length _, sha256HexBytes_chars _, ?_⟩
  unfold make_job_key
  rw [stable_dumps_eq_of_perm p q hperm hnd]

theorem C8_make_job_key_witness :
    make_job_key "11111111-1111-1111-1111-111111111111" "mock_process" c8p
        = sha256HexBytes (utf8Encode ("11111111-1111-1111-1111-111111111111"
            ++ ":" ++ "mock_process" ++ ":" ++ stable_dumps c8p))
    ∧ (make_job_key "11111111-1111-1111-1111-111111111111" "mock_process" c8p).length = 64
    ∧ (∀ c ∈ (make_job_key "11111111-1111-1111-1111-111111111111" "mock_process"
          c8p).data, c ∈ hexDigitChars)
    ∧ make_job_key "11111111-1111-1111-1111-111111111111" "mock_process" c8q
        = make_job_key "11111111-1111-1111-1111-111111111111" "mock_process" c8p :=
  C8_make_job_key "11111111-1111-1111-1111-111111111111" "mock_process" c8p c8q
    (by decide) (by decide)

end Heimdex
